import Mathlib

/-!
Shallow embedding of the chapa-python SDK (src/chapa/api.py) and proofs
about its claims.  Python dynamic values are modelled by the inductive
type Py; dictionaries keep Python's insertion-order/overwrite semantics;
fallible code returns Except.  The HTTP transport is a parameter
(a function from the outgoing request to the decoded response), so
"issuing a request" is visible as the Option HttpRequest component of
each operation's result.
-/

namespace ChapaModel

/-- Python values that flow through the SDK: scalars, strings, floats
(identified by their repr, i.e. the result of Python str()), lists,
dicts, and Response objects (the attribute-addressable nodes produced by
convert_response).  JSON responses never contain the node constructor. -/
inductive Py where
| none
| pyBool (b : Bool)
| int (i : Int)
| float (repr : String)
| str (s : String)
| list (xs : List Py)
| dict (kvs : List (String × Py))
| node (kvs : List (String × Py))

/-- The Python exceptions the SDK can raise, one constructor per raise
site: ValueError for a bad response_format at construction, for a method
outside the allow-list, for each of the three "must be a dict" shape
checks, for a bad amount and a bad email; TypeError for
dict.update(None) or another non-iterable merge argument; ValueError for
an iterable merge argument whose elements are not key-value pairs. -/
inductive PyErr where
| configError
| methodError
| paramsArgError
| dataArgError
| headersArgError
| amountError
| emailError
| typeError
| updateSeqError
deriving DecidableEq

/-- The three ValueError raise sites whose message is "... must be a dict"
(the spec's InvalidArgumentError). -/
def PyErr.isArgumentError : PyErr → Bool
  | PyErr.paramsArgError => true
  | PyErr.dataArgError => true
  | PyErr.headersArgError => true
  | _ => false

abbrev Headers := List (String × Py)

/-- Python dict assignment d[k] = v: overwrite in place if the key is
present (keeping its position), otherwise append. -/
def dictSet : Headers → String → Py → Headers
  | [], k, v => [(k, v)]
  | p :: rest, k, v => if p.1 == k then (k, v) :: rest else p :: dictSet rest k v

/-- Python dict.update with a dict argument: set every key in order. -/
def dictUpdate (st : Headers) (kvs : List (String × Py)) : Headers :=
  kvs.foldl (fun s p => dictSet s p.1 p.2) st

/-- Python dict lookup d.get(k): the value at the first (and, for lists
built by dictSet from a duplicate-free start, only) binding of k. -/
def dictGet : Headers → String → Option Py
  | [], _ => none
  | p :: rest, k => if p.1 == k then some p.2 else dictGet rest k

def isNone : Py → Bool
  | Py.none => true
  | _ => false

def isDict : Py → Bool
  | Py.dict _ => true
  | _ => false

/-- An update sequence: every element must be a key-value pair.  Non-string
keys cannot occur in the String-keyed header map and are not exercised by
any claim; they are folded into the failure case. -/
def seqPairs : List Py → Option (List (String × Py))
  | [] => some []
  | Py.list [Py.str k, v] :: rest => (seqPairs rest).map (fun t => (k, v) :: t)
  | _ => none

/-- self.headers.update(headers): succeeds for a dict (and for the
iterable-of-pairs forms Python accepts); update(None) and other
non-iterables raise TypeError; an iterable whose elements are not
key-value pairs raises (modelled by updateSeqError; an empty string is an
empty iterable and is a no-op). -/
def mergeHeaders (st : Headers) : Py → Except PyErr Headers
  | Py.none => Except.error PyErr.typeError
  | Py.dict kvs => Except.ok (dictUpdate st kvs)
  | Py.str s => if s.isEmpty then Except.ok st else Except.error PyErr.updateSeqError
  | Py.list xs =>
    match seqPairs xs with
    | some kvs => Except.ok (dictUpdate st kvs)
    | Option.none => Except.error PyErr.typeError
  | _ => Except.error PyErr.typeError

/-- Chapa.allowed_methods. -/
def allowed_methods : List String := ["post", "put"]

/-- One outgoing HTTP request: the url, method, body and the headers in
force at the moment requests.post/put is invoked. -/
structure HttpRequest where
  url : String
  method : String
  data : Py
  headers : Headers

/-- The Chapa client: self._key, self.base_url, self.api_version,
self.response_format, self.headers. -/
structure Chapa where
  key : String
  base_url : String
  api_version : String
  response_format : String
  headers : Headers

/-- Chapa.__init__: accepts response_format in ['json', 'obj'], else
raises ValueError; stores the bearer Authorization header derived from
the secret. -/
def chapa_init (secret base_ur api_version response_format : String) :
    Except PyErr Chapa :=
  if response_format == "json" || response_format == "obj" then
    Except.ok ⟨secret, base_ur, api_version, response_format,
      [("Authorization", Py.str ("Bearer " ++ secret))]⟩
  else Except.error PyErr.configError

/-- The client produced by Chapa.__init__ with every optional argument
left at its default. -/
def defaultClient (secret : String) : Chapa :=
  ⟨secret, "https://api.chapa.co", "v1", "json",
    [("Authorization", Py.str ("Bearer " ++ secret))]⟩

/-- Chapa.send_request.  Returns the header state after the call, the
request issued (none when an exception fired first), and the outcome.
Checks run in source order: method allow-list, params shape, data shape,
the headers shape check (which the source writes against data, not
headers), then self.headers.update(headers), then the single HTTP call,
whose decoded body is supplied by the net parameter. -/
def send_request (st : Headers) (net : HttpRequest → Py) (url method : String)
    (data params headers : Py) : Headers × Option HttpRequest × Except PyErr Py :=
  if !allowed_methods.contains method then
    (st, none, Except.error PyErr.methodError)
  else if !isNone params && !isDict params then
    (st, none, Except.error PyErr.paramsArgError)
  else if !isNone data && !isDict data then
    (st, none, Except.error PyErr.dataArgError)
  else if !isNone headers && !isDict data then
    (st, none, Except.error PyErr.headersArgError)
  else
    match mergeHeaders st headers with
    | Except.error e => (st, none, Except.error e)
    | Except.ok st2 =>
      (st2, some ⟨url, method, data, st2⟩, Except.ok (net ⟨url, method, data, st2⟩))

mutual

/-- The recursive rewrite performed by
json.loads(json.dumps(response), object_hook=Response): every JSON
mapping, at any depth (including inside lists), becomes a Response
object whose attribute dictionary holds the converted values.  A node
input cannot occur for a JSON response (json.dumps rejects Response
objects); the clause is included only to make the function total. -/
def deepConv : Py → Py
  | Py.dict kvs => Py.node (deepConvKvs kvs)
  | Py.list xs => Py.list (deepConvList xs)
  | Py.node kvs => Py.node (deepConvKvs kvs)
  | Py.none => Py.none
  | Py.pyBool b => Py.pyBool b
  | Py.int i => Py.int i
  | Py.float r => Py.float r
  | Py.str s => Py.str s

def deepConvList : List Py → List Py
  | [] => []
  | x :: xs => deepConv x :: deepConvList xs

def deepConvKvs : List (String × Py) → List (String × Py)
  | [] => []
  | (k, v) :: xs => (k, deepConv v) :: deepConvKvs xs

end

mutual

/-- Erase attribute-addressability: turn every Response node back into a
plain mapping, leaving everything else untouched.  Composing this with
the conversion measures structural equivalence. -/
def forgetNodes : Py → Py
  | Py.node kvs => Py.dict (forgetNodesKvs kvs)
  | Py.dict kvs => Py.dict (forgetNodesKvs kvs)
  | Py.list xs => Py.list (forgetNodesList xs)
  | Py.none => Py.none
  | Py.pyBool b => Py.pyBool b
  | Py.int i => Py.int i
  | Py.float r => Py.float r
  | Py.str s => Py.str s

def forgetNodesList : List Py → List Py
  | [] => []
  | x :: xs => forgetNodes x :: forgetNodesList xs

def forgetNodesKvs : List (String × Py) → List (String × Py)
  | [] => []
  | (k, v) :: xs => (k, forgetNodes v) :: forgetNodesKvs xs

end

mutual

/-- No plain mapping left anywhere: every mapping in sight has become an
attribute-addressable node. -/
def noDicts : Py → Bool
  | Py.dict _ => false
  | Py.node kvs => noDictsKvs kvs
  | Py.list xs => noDictsList xs
  | _ => true

def noDictsList : List Py → Bool
  | [] => true
  | x :: xs => noDicts x && noDictsList xs

def noDictsKvs : List (String × Py) → Bool
  | [] => true
  | (_, v) :: xs => noDicts v && noDictsKvs xs

end

mutual

/-- A JSON-shaped value: what the decoded body of an HTTP response can
be.  It never contains a Response node. -/
def isJson : Py → Bool
  | Py.node _ => false
  | Py.dict kvs => isJsonKvs kvs
  | Py.list xs => isJsonList xs
  | _ => true

def isJsonList : List Py → Bool
  | [] => true
  | x :: xs => isJson x && isJsonList xs

def isJsonKvs : List (String × Py) → Bool
  | [] => true
  | (_, v) :: xs => isJson v && isJsonKvs xs

end

/-- Chapa.convert_response: a non-dict argument is returned unchanged
(even if it is a list that contains dicts); a dict is rewritten
recursively into Response nodes. -/
def convert_response (response : Py) : Py :=
  if isDict response then deepConv response else response

/-- The adaptation step inside Chapa._construct_request: convert only
when the configured format is "obj" and the result is a dict. -/
def adaptResponse (fmt : String) (res : Py) : Py :=
  if fmt == "obj" && isDict res then convert_response res else res

/-- Chapa._construct_request: forward to send_request, persist the
mutated header state on the client, and adapt a successful result per
the configured response format. -/
def construct_request (c : Chapa) (net : HttpRequest → Py) (url method : String)
    (data params headers : Py) : Chapa × Option HttpRequest × Except PyErr Py :=
  match send_request c.headers net url method data params headers with
  | (st2, req, out) =>
    ({ c with headers := st2 }, req, out.map (fun res => adaptResponse c.response_format res))

/-- str.replace('.', '', 1): drop the first '.' if any. -/
def removeFirstDotL : List Char → List Char
  | [] => []
  | '.' :: rest => rest
  | c :: rest => c :: removeFirstDotL rest

def removeFirstDot (s : String) : String := ⟨removeFirstDotL s.data⟩

/-- str.isdigit(): nonempty and all digits.  (Python also accepts some
non-ASCII digit characters; the SDK's inputs here are ASCII.) -/
def pyIsDigit (s : String) : Bool := !s.data.isEmpty && s.data.all (fun c => c.isDigit)

def digitsVal (l : List Char) : Nat := l.foldl (fun n c => 10 * n + (c.toNat - 48)) 0

/-- float(s) for the strings that pass the digit check — digits with at
most one '.' — as its exact decimal value: the digits around the dot
form the numerator over 10 to the number of fractional digits.  (The
claims never exercise float rounding.) -/
def parseAmount (s : String) : ℚ :=
  match s.data.span (fun c => c != '.') with
  | (ip, []) => mkRat (Int.ofNat (digitsVal ip)) 1
  | (ip, _ :: fp) =>
    mkRat (Int.ofNat (digitsVal ip * 10 ^ fp.length + digitsVal fp)) (10 ^ fp.length)

/-- str(x) for the non-int shapes reaching the string branch of the
amount check.  Containers and None have reprs that start with a
non-digit bracket or letter and can never pass isdigit; a one-character
stand-in with the same first character keeps that property. -/
def pyStrNonInt : Py → String
  | Py.str s => s
  | Py.float r => r
  | Py.none => "None"
  | Py.list _ => "["
  | Py.dict _ => "\x7b"
  | Py.node _ => "<"
  | Py.int i => toString i
  | Py.pyBool b => if b then "True" else "False"

/-- The amount validation block of Chapa.initialize: an int is accepted
unless negative (bool is an int subclass in Python, so both booleans
pass); any other value is accepted only when
str(amount).replace('.', '', 1).isdigit() and float(amount) > 0. -/
def validAmount : Py → Bool
  | Py.int i => if i < 0 then false else true
  | Py.pyBool _ => true
  | a =>
    let s := pyStrNonInt a
    pyIsDigit (removeFirstDot s) && decide (0 < parseAmount s)

/-- The tail of the email regex after the literal '.': one further
non-'@' character must follow. -/
def matchAfterDot : List Char → Bool
  | d :: _ => d != '@'
  | [] => false

/-- Matching of the suffix of the domain after its first mandatory
character: either the literal '.' of the pattern starts here (followed
by a non-'@' character), or one more non-'@' character is consumed into
the first plus-group. -/
def matchDomainRest : List Char → Bool
  | [] => false
  | c :: rest => (c == '.' && matchAfterDot rest) || (c != '@' && matchDomainRest rest)

/-- The domain part of the regex: one non-'@' character, then the rest. -/
def matchDomain : List Char → Bool
  | [] => false
  | c :: rest => c != '@' && matchDomainRest rest

/-- After at least one local-part character: an '@' switches to the
domain; any other non-'@' character is consumed. -/
def matchLocalRest : List Char → Bool
  | [] => false
  | c :: rest => if c == '@' then matchDomain rest else matchLocalRest rest

/-- Truthiness of re.match applied to the initialize email pattern: the
string has a prefix of one-or-more non-'@' characters, an '@', then
one-or-more non-'@' characters, a '.', and a further non-'@' character. -/
def matchEmail (s : String) : Bool :=
  match s.data with
  | [] => false
  | c :: rest => c != '@' && matchLocalRest rest

/-- The customization flattening in Chapa.initialize: if the key is
present, emit one bracketed form field carrying its value. -/
def custEntry (kvs : List (String × Py)) (k field : String) : List (String × Py) :=
  match (kvs.find? (fun p => p.1 == k)).map (fun p => p.2) with
  | some v => [(field, v)]
  | Option.none => []

/-- Chapa.initialize.  The body dict is built in source order; amount is
validated before being inserted, then email; callback_url is added when
truthy (a nonempty string); the truthy customization dict contributes
its three known keys in bracketed form; finally _construct_request posts
to {base_url}/{api_version}/transaction/initialize. -/
def init_tx (c : Chapa) (net : HttpRequest → Py) (email : String) (amount : Py)
    (first_name last_name tx_ref currency : String) (callback_url : Option String)
    (customization : Option (List (String × Py))) (headers : Py) :
    Chapa × Option HttpRequest × Except PyErr Py :=
  let data0 : List (String × Py) :=
    [("first_name", Py.str first_name), ("last_name", Py.str last_name),
     ("tx_ref", Py.str tx_ref), ("currency", Py.str currency)]
  if !validAmount amount then (c, none, Except.error PyErr.amountError)
  else if !matchEmail email then (c, none, Except.error PyErr.emailError)
  else
    let data1 := data0 ++ [("amount", amount), ("email", Py.str email)]
    let data2 := data1 ++
      (match callback_url with
       | some cb => if cb.isEmpty then [] else [("callback_url", Py.str cb)]
       | Option.none => [])
    let data3 := data2 ++
      (match customization with
       | some kvs =>
         if kvs.isEmpty then []
         else custEntry kvs "title" "customization[title]" ++
           custEntry kvs "description" "customization[description]" ++
           custEntry kvs "logo" "customization[logo]"
       | Option.none => [])
    construct_request c net
      (c.base_url ++ "/" ++ c.api_version ++ "/transaction/initialize") "post"
      (Py.dict data3) Py.none headers

/-- Chapa.verify: a GET to
{base_url}/{api_version}/transaction/verify/{transaction} through
_construct_request, with no data and no params. -/
def verify (c : Chapa) (net : HttpRequest → Py) (transaction : String) (headers : Py) :
    Chapa × Option HttpRequest × Except PyErr Py :=
  construct_request c net
    (c.base_url ++ "/" ++ c.api_version ++ "/transaction/verify/" ++ transaction) "get"
    Py.none Py.none headers

/-- A trivial transport: every request decodes to None.  Used only to
instantiate theorems at concrete inputs. -/
def netNone : HttpRequest → Py := fun _ => Py.none

/-- One public operation on a client, with the arguments the caller
controls. -/
inductive Op where
| send (url method : String) (data params headers : Py)
| init (email : String) (amount : Py) (first_name last_name tx_ref currency : String)
    (callback_url : Option String) (customization : Option (List (String × Py)))
    (headers : Py)
| verifyOp (transaction : String) (headers : Py)

/-- The caller-supplied headers argument of an operation. -/
def opHeaders : Op → Py
  | Op.send _ _ _ _ h => h
  | Op.init _ _ _ _ _ _ _ _ h => h
  | Op.verifyOp _ h => h

/-- Run one operation, keeping only the client state it leaves behind. -/
def runOp (net : HttpRequest → Py) (c : Chapa) : Op → Chapa
  | Op.send u m d p h => { c with headers := (send_request c.headers net u m d p h).1 }
  | Op.init e a fn ln tx cur cb cust h => (init_tx c net e a fn ln tx cur cb cust h).1
  | Op.verifyOp t h => (verify c net t h).1

def runOps (net : HttpRequest → Py) (c : Chapa) : List Op → Chapa
  | [] => c
  | op :: ops => runOps net (runOp net c op) ops

/-- The Authorization invariant of the spec: the stored header set binds
Authorization to the bearer form of the secret held by the client. -/
def authInv (c : Chapa) : Prop :=
  dictGet c.headers "Authorization" = some (Py.str ("Bearer " ++ c.key))

/-! ## Claims -/

/-- The single POST that the C1 scenario describes: the default base url
and api version, the bearer header for the secret, and the body built by
Chapa.initialize from the given fields. -/
def reqC1 : HttpRequest :=
  ⟨"https://api.chapa.co/v1/transaction/initialize", "post",
    Py.dict [("first_name", Py.str "A"), ("last_name", Py.str "B"), ("tx_ref", Py.str "tx1"),
      ("currency", Py.str "ETB"), ("amount", Py.int 100), ("email", Py.str "a@b.com")],
    [("Authorization", Py.str "Bearer sk_test_x")]⟩

/-- C1: a client constructed with secret "sk_test_x" and defaults, asked
to initialize(email="a@b.com", amount=100, first_name="A", last_name="B",
tx_ref="tx1") with no extra headers, does NOT issue the claimed POST: the
call reaches self.headers.update(None) and dies with a TypeError before
any request, leaving the client unchanged.  Passing an empty headers dict
instead produces exactly the one POST the claim describes (url, bearer
Authorization, and body with amount, email, names, tx_ref and currency),
whose dispatch result is returned — which locates the divergence in the
update(None) slip, not in the request construction. -/
theorem C1_end_to_end (net : HttpRequest → Py) :
    chapa_init "sk_test_x" "https://api.chapa.co" "v1" "json"
      = Except.ok (defaultClient "sk_test_x")
    ∧ init_tx (defaultClient "sk_test_x") net "a@b.com" (Py.int 100) "A" "B" "tx1" "ETB"
        none none Py.none
      = (defaultClient "sk_test_x", none, Except.error PyErr.typeError)
    ∧ init_tx (defaultClient "sk_test_x") net "a@b.com" (Py.int 100) "A" "B" "tx1" "ETB"
        none none (Py.dict [])
      = (defaultClient "sk_test_x", some reqC1, Except.ok (net reqC1)) :=
  ⟨rfl, rfl, rfl⟩

/-- C2: verify never dispatches the GET the claim describes.  For every
client, transport, transaction id and headers argument, the shared
dispatcher rejects the method "get" (the allow-list is [post, put]), so
verify raises the invalid-method ValueError, issues no request, and
leaves the client unchanged. -/
theorem C2_verify_never_dispatches (c : Chapa) (net : HttpRequest → Py)
    (transaction : String) (headers : Py) :
    verify c net transaction headers = (c, none, Except.error PyErr.methodError) := rfl

/-- C3: the amount validation of initialize.  An integer is accepted
exactly when it is nonnegative (so -1 raises InvalidAmountError); the
string "12.5" passes and the string "abc" fails; and a string or float
amount is accepted exactly when, after deleting the first '.', it is a
nonempty digit string whose decimal value is strictly positive. -/
theorem C3_amount_validation :
    (∀ i : Int, validAmount (Py.int i) = true ↔ 0 ≤ i)
    ∧ validAmount (Py.int (-1)) = false
    ∧ validAmount (Py.str "12.5") = true
    ∧ validAmount (Py.str "abc") = false
    ∧ (∀ s : String, validAmount (Py.str s) = true ↔
        pyIsDigit (removeFirstDot s) = true ∧ 0 < parseAmount s)
    ∧ (∀ r : String, validAmount (Py.float r) = true ↔
        pyIsDigit (removeFirstDot r) = true ∧ 0 < parseAmount r) := by
  refine ⟨fun i => ?_, by decide, by decide, by decide, fun s => ?_, fun r => ?_⟩
  · constructor
    · intro hv
      by_contra hneg
      simp [validAmount, show i < 0 by omega] at hv
    · intro hi
      simp [validAmount, show ¬ i < 0 by omega]
  · simp [validAmount, pyStrNonInt, Bool.and_eq_true, decide_eq_true_iff]
  · simp [validAmount, pyStrNonInt, Bool.and_eq_true, decide_eq_true_iff]

/-- C7: with the raw ("json") response format the adaptation step is the
identity: the value handed back by _construct_request is exactly the
dispatch result, mapping or not. -/
theorem C7_raw_identity (c : Chapa) (h : c.response_format = "json") :
    (∀ res : Py, adaptResponse c.response_format res = res)
    ∧ ∀ (net : HttpRequest → Py) (url method : String) (data params headers : Py),
        (construct_request c net url method data params headers).2.2
          = (send_request c.headers net url method data params headers).2.2 := by
  have hid : ∀ res : Py, adaptResponse c.response_format res = res := by
    intro res
    rw [h]
    rfl
  refine ⟨hid, fun net url method data params headers => ?_⟩
  have key : (construct_request c net url method data params headers).2.2
      = ((send_request c.headers net url method data params headers).2.2).map
        (fun res => adaptResponse c.response_format res) := rfl
  rw [key]
  cases (send_request c.headers net url method data params headers).2.2 with
  | error e => rfl
  | ok v => simp [Except.map, hid]

/-- Witness for C7 at a concrete client and a concrete non-mapping
dispatch result. -/
theorem C7_raw_identity_witness :
    adaptResponse (defaultClient "sk").response_format (Py.str "pending") = Py.str "pending" :=
  (C7_raw_identity (defaultClient "sk") rfl).1 (Py.str "pending")

/-- C4: with a valid amount (so that the earlier amount check passes),
any email rejected by the initialize regex makes initialize raise
InvalidEmailError with no request issued and the client unchanged;
"not-an-email" is such an email, while "a@b.com" matches and (with
otherwise valid arguments and a headers dict) the call proceeds to
dispatch. -/
theorem C4_email_validation :
    (∀ (c : Chapa) (net : HttpRequest → Py) (email : String) (amount : Py)
        (fn ln tx cur : String) (cb : Option String)
        (cust : Option (List (String × Py))) (hd : Py),
        validAmount amount = true → matchEmail email = false →
        init_tx c net email amount fn ln tx cur cb cust hd
          = (c, none, Except.error PyErr.emailError))
    ∧ matchEmail "not-an-email" = false
    ∧ matchEmail "a@b.com" = true
    ∧ ∀ net : HttpRequest → Py,
        (init_tx (defaultClient "sk") net "a@b.com" (Py.int 1) "A" "B" "t" "ETB"
          none none (Py.dict [])).2.1.isSome = true := by
  refine ⟨?_, by decide, by decide, fun net => rfl⟩
  intro c net email amount fn ln tx cur cb cust hd h1 h2
  simp [init_tx, h1, h2]

/-- Witness for C4: a concrete client, an invalid email and a valid
amount reach the InvalidEmailError with no request issued. -/
theorem C4_email_validation_witness :
    init_tx (defaultClient "sk") netNone "not-an-email" (Py.int 1) "A" "B" "t" "ETB"
        none none Py.none
      = (defaultClient "sk", none, Except.error PyErr.emailError) :=
  C4_email_validation.1 (defaultClient "sk") netNone "not-an-email" (Py.int 1)
    "A" "B" "t" "ETB" none none Py.none (by decide) (by decide)

/-- C5: send_request raises InvalidMethodError for every method outside
the allow-list [post, put] — in particular "get" is outside it — and,
for method "post" with valid params, raises the body-shape
InvalidArgumentError whenever data is provided but is not a dict; in
both cases no request is issued and the header state is unchanged. -/
theorem C5_method_and_body_checks :
    (∀ (st : Headers) (net : HttpRequest → Py) (url method : String)
        (data params headers : Py),
        allowed_methods.contains method = false →
        send_request st net url method data params headers
          = (st, none, Except.error PyErr.methodError))
    ∧ allowed_methods.contains "get" = false
    ∧ ∀ (st : Headers) (net : HttpRequest → Py) (url : String) (data params headers : Py),
        (isNone params || isDict params) = true →
        isNone data = false → isDict data = false →
        send_request st net url "post" data params headers
          = (st, none, Except.error PyErr.dataArgError) := by
  refine ⟨?_, by decide, ?_⟩
  · intro st net url method data params headers h
    have e1 : (!allowed_methods.contains method) = true := by rw [h]; rfl
    unfold send_request
    rw [e1]
    rfl
  · intro st net url data params headers hp h1 h2
    have e2 : (!isNone params && !isDict params) = false := by
      cases hNp : isNone params <;> cases hDp : isDict params <;> simp_all
    have e3 : (!isNone data && !isDict data) = true := by rw [h1, h2]; rfl
    unfold send_request
    rw [e2, e3]
    rfl

/-- Witness for C5: method "get" is rejected, and a string body under
method "post" trips the body-shape check. -/
theorem C5_method_and_body_checks_witness :
    send_request [] netNone "u" "get" Py.none Py.none Py.none
      = ([], none, Except.error PyErr.methodError)
    ∧ send_request [] netNone "u" "post" (Py.str "nope") Py.none Py.none
      = ([], none, Except.error PyErr.dataArgError) :=
  ⟨C5_method_and_body_checks.1 [] netNone "u" "get" Py.none Py.none Py.none (by decide),
   C5_method_and_body_checks.2.2 [] netNone "u" (Py.str "nope") Py.none Py.none
     (by decide) (by decide) (by decide)⟩

/-- C10 counterexample: verify without a headers argument does NOT raise
the TypeError the claim asserts; the method allow-list check fires first
("get" is not allowed), so the outcome is the invalid-method ValueError,
a different exception. -/
theorem C10_counterexample_verify :
    (verify (defaultClient "sk") netNone "tx1" Py.none).2.2
      = Except.error PyErr.methodError
    ∧ PyErr.methodError ≠ PyErr.typeError := ⟨rfl, by decide⟩

/-- C10 (amended): for every send_request call that passes the method
allow-list and the params/data shape checks, a missing (None) headers
argument dies with a TypeError at self.headers.update(None) before any
request is issued — initialize invoked without headers reaches exactly
this; verify instead fails earlier with InvalidMethodError (see the
counterexample). -/
theorem C10_missing_headers_typeerror :
    (∀ (st : Headers) (net : HttpRequest → Py) (url method : String) (data params : Py),
        allowed_methods.contains method = true →
        (isNone params || isDict params) = true →
        (isNone data || isDict data) = true →
        send_request st net url method data params Py.none
          = (st, none, Except.error PyErr.typeError))
    ∧ ∀ (c : Chapa) (net : HttpRequest → Py) (email : String) (amount : Py)
        (fn ln tx cur : String),
        validAmount amount = true → matchEmail email = true →
        init_tx c net email amount fn ln tx cur none none Py.none
          = (c, none, Except.error PyErr.typeError) := by
  constructor
  · intro st net url method data params hm hp hd
    have e1 : (!allowed_methods.contains method) = false := by rw [hm]; rfl
    have e2 : (!isNone params && !isDict params) = false := by
      cases hNp : isNone params <;> cases hDp : isDict params <;> simp_all
    have e3 : (!isNone data && !isDict data) = false := by
      cases hNd : isNone data <;> cases hDd : isDict data <;> simp_all
    unfold send_request
    rw [e1, e2, e3]
    rfl
  · intro c net email amount fn ln tx cur h1 h2
    have e1 : (!validAmount amount) = false := by rw [h1]; rfl
    have e2 : (!matchEmail email) = false := by rw [h2]; rfl
    unfold init_tx
    rw [e1, e2]
    rfl

/-- Witness for C10: a post with no body and no headers dies at the
merge with a TypeError, and so does a fully valid initialize call that
omits headers. -/
theorem C10_missing_headers_typeerror_witness :
    send_request [] netNone "u" "post" Py.none Py.none Py.none
      = ([], none, Except.error PyErr.typeError)
    ∧ init_tx (defaultClient "sk") netNone "a@b.com" (Py.int 5) "A" "B" "t" "ETB"
        none none Py.none
      = (defaultClient "sk", none, Except.error PyErr.typeError) :=
  ⟨C10_missing_headers_typeerror.1 [] netNone "u" "post" Py.none Py.none
      (by decide) (by decide) (by decide),
   C10_missing_headers_typeerror.2 (defaultClient "sk") netNone "a@b.com" (Py.int 5)
      "A" "B" "t" "ETB" (by decide) (by decide)⟩

theorem isDict_false_of_isNone (x : Py) (h : isNone x = true) : isDict x = false := by
  cases x <;> simp_all [isNone, isDict]

/-- The header merge can fail, but never with the headers-shape
ValueError: whatever it raises comes from dict.update itself. -/
theorem mergeHeaders_ne_headersArg (st : Headers) (hdr : Py) :
    mergeHeaders st hdr ≠ Except.error PyErr.headersArgError := by
  cases hdr
  case str s => by_cases h : s.isEmpty <;> simp [mergeHeaders, h]
  case list xs => cases h : seqPairs xs <;> simp [mergeHeaders, h]
  all_goals simp [mergeHeaders]

/-- C6 counterexample: a provided non-mapping extraHeaders with a
mapping body does NOT fail the shape check the claim describes — the
call instead reaches self.headers.update(5) and dies with a TypeError,
which is not one of the "must be a dict" InvalidArgumentErrors. -/
theorem C6_counterexample_nondict_headers :
    send_request [("Authorization", Py.str "Bearer sk")] netNone "u" "post"
        (Py.dict []) Py.none (Py.int 5)
      = ([("Authorization", Py.str "Bearer sk")], none, Except.error PyErr.typeError)
    ∧ PyErr.isArgumentError PyErr.typeError = false := ⟨rfl, rfl⟩

/-- C6 (amended): the headers shape check re-checks the body, exactly as
the claim's parenthetical says.  For an allowed method with valid
params, when extraHeaders is provided (not None) the call fails with the
headers-shape InvalidArgumentError precisely when the body argument is
None — independent of the shape of extraHeaders itself; a non-mapping
extraHeaders alongside a mapping body slips past the check (and fails
later, at the merge). -/
theorem C6_header_check_inspects_body :
    ∀ (st : Headers) (net : HttpRequest → Py) (url method : String)
      (data params headers : Py),
      allowed_methods.contains method = true →
      (isNone params || isDict params) = true →
      isNone headers = false →
      ((send_request st net url method data params headers).2.2
          = Except.error PyErr.headersArgError
        ↔ isNone data = true) := by
  intro st net url method data params headers hm hp hh
  have e1 : (!allowed_methods.contains method) = false := by rw [hm]; rfl
  have e2 : (!isNone params && !isDict params) = false := by
    cases hNp : isNone params <;> cases hDp : isDict params <;> simp_all
  unfold send_request
  rw [e1, e2, hh]
  cases hNd : isNone data with
  | true =>
    simp [isDict_false_of_isNone data hNd]
  | false =>
    cases hDd : isDict data with
    | true =>
      cases hmg : mergeHeaders st headers with
      | error e =>
        have hne := mergeHeaders_ne_headersArg st headers
        rw [hmg] at hne
        have hne2 : e ≠ PyErr.headersArgError := fun h => hne (by rw [h])
        show Except.error e = Except.error PyErr.headersArgError ↔ false = true
        constructor
        · intro hcontra
          injection hcontra with h
          exact absurd h hne2
        · intro hcontra
          exact Bool.noConfusion hcontra
      | ok st2 => simp
    | false =>
      simp

/-- Witness for C6: extraHeaders provided as a perfectly valid dict, but
with the body omitted, trips the headers-shape error — because the check
inspects the body, not the headers. -/
theorem C6_header_check_inspects_body_witness :
    (send_request [] netNone "u" "post" Py.none Py.none
        (Py.dict [("k", Py.str "v")])).2.2
      = Except.error PyErr.headersArgError :=
  (C6_header_check_inspects_body [] netNone "u" "post" Py.none Py.none
      (Py.dict [("k", Py.str "v")]) (by decide) (by decide) (by decide)).mpr (by decide)

mutual

/-- Erasing attribute-addressability after the recursive conversion
gives back the original JSON value: the converted tree has the same key
sets and the same values at every level. -/
theorem forget_deepConv : ∀ v : Py, isJson v = true → forgetNodes (deepConv v) = v
  | Py.dict kvs, h => by
    have hk : isJsonKvs kvs = true := by simpa [isJson] using h
    show Py.dict (forgetNodesKvs (deepConvKvs kvs)) = Py.dict kvs
    rw [forget_deepConvKvs kvs hk]
  | Py.list xs, h => by
    have hk : isJsonList xs = true := by simpa [isJson] using h
    show Py.list (forgetNodesList (deepConvList xs)) = Py.list xs
    rw [forget_deepConvList xs hk]
  | Py.node kvs, h => by simp [isJson] at h
  | Py.none, _ => rfl
  | Py.pyBool b, _ => rfl
  | Py.int i, _ => rfl
  | Py.float r, _ => rfl
  | Py.str s, _ => rfl

theorem forget_deepConvList :
    ∀ xs : List Py, isJsonList xs = true → forgetNodesList (deepConvList xs) = xs
  | [], _ => rfl
  | x :: xs, h => by
    have h1 : isJson x = true ∧ isJsonList xs = true := by
      simpa [isJsonList, Bool.and_eq_true] using h
    show forgetNodes (deepConv x) :: forgetNodesList (deepConvList xs) = x :: xs
    rw [forget_deepConv x h1.1, forget_deepConvList xs h1.2]

theorem forget_deepConvKvs :
    ∀ kvs : List (String × Py), isJsonKvs kvs = true →
      forgetNodesKvs (deepConvKvs kvs) = kvs
  | [], _ => rfl
  | (k, v) :: kvs, h => by
    have h1 : isJson v = true ∧ isJsonKvs kvs = true := by
      simpa [isJsonKvs, Bool.and_eq_true] using h
    show (k, forgetNodes (deepConv v)) :: forgetNodesKvs (deepConvKvs kvs) = (k, v) :: kvs
    rw [forget_deepConv v h1.1, forget_deepConvKvs kvs h1.2]

end

mutual

/-- After the recursive conversion of a JSON value no plain mapping
remains: every mapping, at any depth, has become an attribute node. -/
theorem noDicts_deepConv : ∀ v : Py, isJson v = true → noDicts (deepConv v) = true
  | Py.dict kvs, h => by
    have hk : isJsonKvs kvs = true := by simpa [isJson] using h
    show noDictsKvs (deepConvKvs kvs) = true
    exact noDicts_deepConvKvs kvs hk
  | Py.list xs, h => by
    have hk : isJsonList xs = true := by simpa [isJson] using h
    show noDictsList (deepConvList xs) = true
    exact noDicts_deepConvList xs hk
  | Py.node kvs, h => by simp [isJson] at h
  | Py.none, _ => rfl
  | Py.pyBool b, _ => rfl
  | Py.int i, _ => rfl
  | Py.float r, _ => rfl
  | Py.str s, _ => rfl

theorem noDicts_deepConvList :
    ∀ xs : List Py, isJsonList xs = true → noDictsList (deepConvList xs) = true
  | [], _ => rfl
  | x :: xs, h => by
    have h1 : isJson x = true ∧ isJsonList xs = true := by
      simpa [isJsonList, Bool.and_eq_true] using h
    show (noDicts (deepConv x) && noDictsList (deepConvList xs)) = true
    rw [noDicts_deepConv x h1.1, noDicts_deepConvList xs h1.2]
    rfl

theorem noDicts_deepConvKvs :
    ∀ kvs : List (String × Py), isJsonKvs kvs = true →
      noDictsKvs (deepConvKvs kvs) = true
  | [], _ => rfl
  | (k, v) :: kvs, h => by
    have h1 : isJson v = true ∧ isJsonKvs kvs = true := by
      simpa [isJsonKvs, Bool.and_eq_true] using h
    show (noDicts (deepConv v) && noDictsKvs (deepConvKvs kvs)) = true
    rw [noDicts_deepConv v h1.1, noDicts_deepConvKvs kvs h1.2]
    rfl

end

/-- C8: with the "obj" response format, a mapping dispatch result is
adapted into an attribute-addressable object graph structurally
equivalent to the input: no plain mapping remains anywhere (mappings
inside lists included), and erasing the attribute nodes gives back
exactly the original mapping — same key sets, same values, recursively;
a non-mapping dispatch result is returned unchanged. -/
theorem C8_object_conversion (v : Py) (h : isJson v = true) :
    (isDict v = true →
      forgetNodes (adaptResponse "obj" v) = v
      ∧ noDicts (adaptResponse "obj" v) = true)
    ∧ (isDict v = false → adaptResponse "obj" v = v) := by
  constructor
  · intro hd
    have ha : adaptResponse "obj" v = deepConv v := by
      simp [adaptResponse, convert_response, hd]
    rw [ha]
    exact ⟨forget_deepConv v h, noDicts_deepConv v h⟩
  · intro hd
    simp [adaptResponse, hd]

/-- A nested JSON response: mappings inside mappings and inside lists. -/
def sampleJson : Py :=
  Py.dict [("status", Py.str "success"),
    ("data", Py.dict [("amount", Py.int 100), ("meta", Py.dict [("ok", Py.pyBool true)])]),
    ("items", Py.list [Py.dict [("id", Py.int 1)], Py.str "x", Py.none])]

/-- Witness for C8 on a concrete nested mapping. -/
theorem C8_object_conversion_witness :
    forgetNodes (adaptResponse "obj" sampleJson) = sampleJson
    ∧ noDicts (adaptResponse "obj" sampleJson) = true :=
  (C8_object_conversion sampleJson rfl).1 rfl

/-- Setting a different key never changes what a lookup sees. -/
theorem dictGet_dictSet_ne (st : Headers) (k k2 : String) (v : Py)
    (h : (k2 == k) = false) :
    dictGet (dictSet st k2 v) k = dictGet st k := by
  induction st with
  | nil => simp [dictSet, dictGet, h]
  | cons p rest ih =>
    by_cases hp : (p.1 == k2) = true
    · have hpe : p.1 = k2 := by simpa using hp
      have hpk : (p.1 == k) = false := by
        rw [hpe]
        exact h
      simp [dictSet, hp, dictGet, h, hpk]
    · have hp2 : (p.1 == k2) = false := by simpa using hp
      simp [dictSet, hp2, dictGet, ih]

/-- dict.update with a mapping that does not bind k leaves the lookup of
k unchanged. -/
theorem dictGet_dictUpdate_no_key :
    ∀ (kvs : List (String × Py)) (st : Headers) (k : String),
      (∀ p ∈ kvs, (p.1 == k) = false) →
      dictGet (dictUpdate st kvs) k = dictGet st k
  | [], _, _, _ => rfl
  | p :: rest, st, k, h => by
    have h1 : (p.1 == k) = false := h p (List.mem_cons_self p rest)
    have h2 : ∀ q ∈ rest, (q.1 == k) = false := fun q hq => h q (List.mem_cons_of_mem p hq)
    show dictGet (dictUpdate (dictSet st p.1 p.2) rest) k = dictGet st k
    rw [dictGet_dictUpdate_no_key rest (dictSet st p.1 p.2) k h2,
      dictGet_dictSet_ne st k p.1 p.2 h1]

/-- The headers arguments under which the amended C9 invariant is
stated: either omitted (None) or a mapping that does not itself bind the
Authorization key. -/
def headersOk : Py → Bool
  | Py.none => true
  | Py.dict kvs => kvs.all (fun p => !(p.1 == "Authorization"))
  | _ => false

/-- Whatever send_request does — any of its four pre-checks failing, the
merge failing, or the request going out — the Authorization entry of the
resulting header state is the one it started with, provided the caller
headers are None or a mapping that does not bind Authorization. -/
theorem send_request_preserves_auth (st : Headers) (net : HttpRequest → Py)
    (url method : String) (data params headers : Py)
    (hh : headersOk headers = true) :
    dictGet (send_request st net url method data params headers).1 "Authorization"
      = dictGet st "Authorization" := by
  unfold send_request
  split
  · rfl
  · split
    · rfl
    · split
      · rfl
      · split
        · rfl
        · cases headers with
          | none => rfl
          | dict kvs =>
            have hk : ∀ p ∈ kvs, (p.1 == "Authorization") = false := by
              simpa [headersOk, List.all_eq_true, Bool.not_eq_true'] using hh
            show dictGet (dictUpdate st kvs) "Authorization" = dictGet st "Authorization"
            exact dictGet_dictUpdate_no_key kvs st "Authorization" hk
          | pyBool b => simp [headersOk] at hh
          | int i => simp [headersOk] at hh
          | float r => simp [headersOk] at hh
          | str s => simp [headersOk] at hh
          | list xs => simp [headersOk] at hh
          | node kvs => simp [headersOk] at hh

theorem construct_request_preserves_auth (c : Chapa) (net : HttpRequest → Py)
    (url method : String) (data params headers : Py)
    (hc : authInv c) (hh : headersOk headers = true) :
    authInv (construct_request c net url method data params headers).1 := by
  show dictGet (send_request c.headers net url method data params headers).1 "Authorization"
    = some (Py.str ("Bearer " ++ c.key))
  rw [send_request_preserves_auth c.headers net url method data params headers hh]
  exact hc

theorem runOp_preserves_auth (net : HttpRequest → Py) (c : Chapa) (op : Op)
    (hc : authInv c) (hop : headersOk (opHeaders op) = true) :
    authInv (runOp net c op) := by
  cases op with
  | send u m d p h =>
    show dictGet (send_request c.headers net u m d p h).1 "Authorization"
      = some (Py.str ("Bearer " ++ c.key))
    rw [send_request_preserves_auth c.headers net u m d p h hop]
    exact hc
  | init e a fn ln tx cur cb cust h =>
    show authInv (init_tx c net e a fn ln tx cur cb cust h).1
    simp only [init_tx]
    split
    · exact hc
    · split
      · exact hc
      · exact construct_request_preserves_auth c net _ "post" _ Py.none h hc hop
  | verifyOp t h =>
    exact construct_request_preserves_auth c net _ "get" Py.none Py.none h hc hop

/-- C9 (amended): across every sequence of send_request, initialize and
verify calls whose caller-supplied headers are each either omitted
(None) or a mapping that does not itself bind Authorization, the
client's header set keeps Authorization bound to "Bearer " followed by
the construction secret — before and after every operation.  (The
restriction is forced by the counterexample: a caller mapping that binds
Authorization overwrites the stored value.) -/
theorem C9_auth_invariant (net : HttpRequest → Py) (ops : List Op) :
    ∀ c : Chapa, authInv c → (∀ op ∈ ops, headersOk (opHeaders op) = true) →
      authInv (runOps net c ops) := by
  induction ops with
  | nil => intro c hc _; exact hc
  | cons op rest ih =>
    intro c hc hops
    exact ih (runOp net c op)
      (runOp_preserves_auth net c op hc (hops op (List.mem_cons_self op rest)))
      (fun q hq => hops q (List.mem_cons_of_mem op hq))

/-- Witness for C9 on a one-operation run whose caller headers add an
unrelated entry. -/
theorem C9_auth_invariant_witness :
    authInv (runOps netNone (defaultClient "sk")
      [Op.send "u" "post" (Py.dict []) Py.none (Py.dict [("X-Custom", Py.str "1")])]) :=
  C9_auth_invariant netNone
    [Op.send "u" "post" (Py.dict []) Py.none (Py.dict [("X-Custom", Py.str "1")])]
    (defaultClient "sk") rfl (by decide)

/-- C9 counterexample: one send_request whose caller headers bind
Authorization overwrites the stored bearer value — after the operation
the header set no longer reflects the construction secret, so the
claimed invariant fails. -/
theorem C9_counterexample_header_override :
    dictGet (runOps netNone (defaultClient "sk")
        [Op.send "u" "post" (Py.dict []) Py.none
          (Py.dict [("Authorization", Py.str "pwned")])]).headers "Authorization"
      = some (Py.str "pwned")
    ∧ ("pwned" : String) ≠ "Bearer " ++ "sk" := ⟨rfl, by decide⟩

end ChapaModel
